import Mathlib

/-!
Verification of the shipsy revenue-enrichment pipeline.

This file gives a shallow embedding, in Lean 4, of the parts of the
repository that the specification talks about:

* `src/src/agents/revenue_agent.py`
  - the retry wrapper `DeepSeekRevenueAgent._retry_api_call`,
  - the status classification inside `_call_deepseek.make_request`,
  - the response-processing portion of
    `DeepSeekRevenueAgent.extract_revenue_from_sources` (lines 277-333:
    everything the function does with the model's free-text response),
  - `DeepSeekRevenueAgent.analyze_company_revenue`;
* `src/src/tools/tier_assignment.py` (`assign_company_tier`,
  `format_revenue_display`, `get_tier_description`, `analyze_company_tier`);
* the inline tier logic of
  `src/src/processors/excel_company_processor.py` (`process_companies`);
* `src/src/processors/csv_processor.py` (`process_single_company`,
  `process_companies_batch`).

Modelling conventions: Python exceptions are values of `PyExc`, and every
fallible computation returns `Except PyExc α`; a `try/except` block is a
`match` on that value.  Python floats produced by `json.loads`/`float()`
are modelled exactly as rationals (`ℚ`); all numbers the claims involve
are integers, far below any precision boundary.  `json.loads` is modelled
by an executable JSON reader (`jsonLoadsL`) following Python's `json`
grammar: literals, strict strings with escapes, maximal-munch numbers with
optional fraction/exponent, arrays, objects with last-duplicate-key-wins,
whitespace, an "Extra data" check for trailing input, and the `NaN`,
`Infinity` and `-Infinity` constants Python accepts by default.  Python
floats are modelled by `PyFloat`: an exact rational, `nan`, or a signed
infinity, with IEEE comparison semantics (every comparison against `nan`
is false); all finite numbers the claims involve are integers far below
any precision boundary.  Surrogate-pair recombination and the line/column
positions inside error messages are omitted as irrelevant to every
claim.  `re.search` of the pattern used at line 284 of
`revenue_agent.py` (first open brace through the last close brace, with
DOTALL) is modelled by `braceMatch`.
-/

namespace Shipsy

/-! ## Python exception values -/

/-- Exception taxonomy of `revenue_agent.py` plus the builtin Python
exceptions the modelled code can raise.  `requestException` stands for
`requests.exceptions.RequestException` and its subclasses
(`Timeout`, `ConnectionError`). -/
inductive PyExc where
  | jsonDecode (msg : String)
  | valueError (msg : String)
  | typeError (msg : String)
  | attributeError (msg : String)
  | apiError (msg : String)
  | validationError (msg : String)
  | configurationError (msg : String)
  | dataProcessingError (msg : String)
  | requestException (msg : String)
deriving Repr, DecidableEq

/-- Python `str(e)` on the exceptions above. -/
def PyExc.msg : PyExc → String
  | .jsonDecode m => m
  | .valueError m => m
  | .typeError m => m
  | .attributeError m => m
  | .apiError m => m
  | .validationError m => m
  | .configurationError m => m
  | .dataProcessingError m => m
  | .requestException m => m

/-! ## JSON values -/

/-- JSON values as produced by Python's `json.loads`; ordinary numbers
are kept exactly as rationals, and the `NaN`/`Infinity`/`-Infinity`
constants Python accepts by default have their own constructors.  An
object is the list of its key/value pairs in
textual order (duplicate keys allowed; lookup takes the last one, as a
Python dict built by successive assignment would). -/
inductive Json where
  | null
  | bool (b : Bool)
  | num (q : ℚ)
  | nan
  | inf (neg : Bool)
  | str (s : String)
  | arr (elems : List Json)
  | obj (fields : List (String × Json))
deriving Repr

/-- Lookup of a key in a JSON object's field list, taking the last
occurrence (Python dict semantics under duplicate keys). -/
def lookupLast (fs : List (String × Json)) (k : String) : Option Json :=
  fs.foldl (fun acc p => if p.1 = k then some p.2 else acc) none

/-! ## Python floats

The values `float()` can produce: an exact rational (all finite numbers
the pipeline meets are exactly representable), `nan`, or a signed
infinity. -/

/-- A Python float: finite (kept exact), `nan`, or infinity
(`inf true` is negative infinity). -/
inductive PyFloat where
  | finite (q : ℚ)
  | nan
  | inf (neg : Bool)
deriving Repr, DecidableEq

/-- IEEE strict less-than on Python floats: every comparison involving
`nan` is false. -/
def pyFloatLt : PyFloat → PyFloat → Bool
  | .nan, _ => false
  | _, .nan => false
  | .finite a, .finite b => decide (a < b)
  | .inf true, .inf true => false
  | .inf true, _ => true
  | .inf false, _ => false
  | .finite _, .inf false => true
  | .finite _, .inf true => false

/-- IEEE less-or-equal on Python floats: every comparison involving
`nan` is false. -/
def pyFloatLe : PyFloat → PyFloat → Bool
  | .nan, _ => false
  | _, .nan => false
  | .finite a, .finite b => decide (a ≤ b)
  | .inf true, _ => true
  | _, .inf false => true
  | _, _ => false

instance : LT PyFloat := ⟨fun a b => pyFloatLt a b = true⟩

instance : LE PyFloat := ⟨fun a b => pyFloatLe a b = true⟩

instance (a b : PyFloat) : Decidable (a < b) :=
  inferInstanceAs (Decidable (pyFloatLt a b = true))

instance (a b : PyFloat) : Decidable (a ≤ b) :=
  inferInstanceAs (Decidable (pyFloatLe a b = true))

instance (a b : PyFloat) : Decidable (a ≥ b) :=
  inferInstanceAs (Decidable (pyFloatLe b a = true))

instance (a b : PyFloat) : Decidable (a > b) :=
  inferInstanceAs (Decidable (pyFloatLt b a = true))

instance (n : ℕ) : OfNat PyFloat n := ⟨.finite (OfNat.ofNat n)⟩

theorem ofNat_eq_finite (n : ℕ) :
    (OfNat.ofNat n : PyFloat) = .finite (OfNat.ofNat n) := rfl

theorem finite_lt_finite {a b : ℚ} :
    (PyFloat.finite a < PyFloat.finite b) ↔ a < b := by
  show pyFloatLt (.finite a) (.finite b) = true ↔ a < b
  simp [pyFloatLt]

theorem finite_le_finite {a b : ℚ} :
    (PyFloat.finite a ≤ PyFloat.finite b) ↔ a ≤ b := by
  show pyFloatLe (.finite a) (.finite b) = true ↔ a ≤ b
  simp [pyFloatLe]

/-! ## Characters and whitespace -/

/-- The open-brace character. -/
def lbrace : Char := Char.ofNat 123

/-- The close-brace character. -/
def rbrace : Char := Char.ofNat 125

/-- JSON whitespace, as skipped by Python's `json` scanner. -/
def isWsChar (c : Char) : Bool := c = ' ' ∨ c = '\t' ∨ c = '\n' ∨ c = '\r'

/-- Skip leading JSON whitespace. -/
def skipWs (l : List Char) : List Char := l.dropWhile isWsChar

/-- Python str.strip of ASCII whitespace, by explicit recursion so that
it evaluates definitionally. -/
def pyStrip (s : String) : String :=
  (((s.toList.dropWhile isWsChar).reverse.dropWhile isWsChar).reverse).asString

/-! ## Number scanning (Python `json` NUMBER_RE, maximal munch) -/

/-- Numeric value of a decimal digit character. -/
def digitVal (c : Char) : ℕ := c.toNat - 48

/-- Decimal digits to a natural number. -/
def digitsToNat (ds : List Char) : ℕ :=
  ds.foldl (fun acc c => acc * 10 + digitVal c) 0

/-- Split a list into its leading run of decimal digits and the rest. -/
def splitDigits (l : List Char) : List Char × List Char :=
  (l.takeWhile Char.isDigit, l.dropWhile Char.isDigit)

/-- Powers of ten as naturals, by plain recursion (kept away from the
generic monoid power so that parsed numbers evaluate definitionally). -/
def natPow10 : ℕ → ℕ
  | 0 => 1
  | n + 1 => 10 * natPow10 n

/-- Integer part of a JSON number: `0` or a nonzero digit followed by more
digits; a leading `0` is never followed by further integer digits
(Python's regex `0|[1-9]\d*`). Returns the digits and the rest; an empty
digit list signals a scan failure. -/
def intPart (l : List Char) : List Char × List Char :=
  match l with
  | [] => ([], [])
  | c :: r =>
    if c = '0' then ([c], r)
    else if c.isDigit then splitDigits (c :: r)
    else ([], c :: r)

/-- Optional fraction part `(\.\d+)?`: consumed only when a dot is
directly followed by at least one digit. -/
def fracPart (l : List Char) : List Char × List Char :=
  match l with
  | [] => ([], [])
  | c :: r =>
    if c = '.' then
      let p := splitDigits r
      if p.1 = [] then ([], c :: r) else (p.1, p.2)
    else ([], c :: r)

/-- Optional exponent part `([eE][-+]?\d+)?`: returns (negative?, digits,
rest); an empty digit list means nothing was consumed. -/
def expPart (l : List Char) : Bool × List Char × List Char :=
  match l with
  | [] => (false, [], [])
  | c :: r =>
    if c = 'e' ∨ c = 'E' then
      match r with
      | [] => (false, [], c :: r)
      | c2 :: r2 =>
        if c2 = '+' then
          let p := splitDigits r2
          if p.1 = [] then (false, [], c :: r) else (false, p.1, p.2)
        else if c2 = '-' then
          let p := splitDigits r2
          if p.1 = [] then (false, [], c :: r) else (true, p.1, p.2)
        else
          let p := splitDigits r
          if p.1 = [] then (false, [], c :: r) else (false, p.1, p.2)
    else (false, [], c :: r)

/-- Scan a JSON number starting at the current position.  Mirrors the
maximal-munch regex of Python's `json` scanner; the numeric value is the
exact rational. -/
def parseNum (l : List Char) : Except String (ℚ × List Char) :=
  let sl : Bool × List Char :=
    match l with
    | c :: r => if c = '-' then (true, r) else (false, c :: r)
    | [] => (false, [])
  let ip := intPart sl.2
  if ip.1 = [] then .error "Expecting value"
  else
    let fp := fracPart ip.2
    let ep := expPart fp.2
    let mant : ℤ := (digitsToNat (ip.1 ++ fp.1) : ℤ)
    let signed : ℤ := if sl.1 then -mant else mant
    let q : ℚ :=
      if ep.2.1 = [] then mkRat signed (natPow10 fp.1.length)
      else if ep.1 then mkRat signed (natPow10 fp.1.length * natPow10 (digitsToNat ep.2.1))
      else mkRat (signed * (natPow10 (digitsToNat ep.2.1) : ℤ)) (natPow10 fp.1.length)
    .ok (q, ep.2.2)

/-! ## String scanning (strict mode, as Python `json.loads`) -/

/-- Hexadecimal digit value, if any. -/
def hexVal (c : Char) : Option ℕ :=
  if c.isDigit then some (c.toNat - 48)
  else if 'a' ≤ c ∧ c ≤ 'f' then some (c.toNat - 87)
  else if 'A' ≤ c ∧ c ≤ 'F' then some (c.toNat - 55)
  else none

/-- Scan the body of a JSON string after the opening quote: plain
characters (control characters rejected, strict mode), the standard
escapes, and 4-hex-digit unicode escapes.  Returns the decoded string and
the number of characters consumed, the closing quote included (so the
caller continues at `drop count`).  Fuelled: every step consumes at least
one character, so the callers' `length + 1` never runs out. -/
def strBody : Nat → List Char → List Char → Except String (String × ℕ)
  | 0, _, _ => .error "Unterminated string starting at"
  | fuel + 1, l, acc =>
    match l with
    | [] => .error "Unterminated string starting at"
    | c :: r =>
      if c = '\"' then .ok (acc.reverse.asString, 1)
      else if c = '\\' then
        match r with
        | [] => .error "Unterminated string starting at"
        | e :: r2 =>
          let esc : Option Char :=
            if e = '\"' then some '\"'
            else if e = '\\' then some '\\'
            else if e = '/' then some '/'
            else if e = 'b' then some (Char.ofNat 8)
            else if e = 'f' then some (Char.ofNat 12)
            else if e = 'n' then some '\n'
            else if e = 'r' then some '\r'
            else if e = 't' then some '\t'
            else none
          match esc with
          | some ch =>
            match strBody fuel r2 (ch :: acc) with
            | .ok (s, n) => .ok (s, n + 2)
            | .error m => .error m
          | none =>
            if e = 'u' then
              match r2 with
              | h1 :: h2 :: h3 :: h4 :: r3 =>
                match hexVal h1, hexVal h2, hexVal h3, hexVal h4 with
                | some a, some b, some c3, some d =>
                  match strBody fuel r3
                      (Char.ofNat (((a * 16 + b) * 16 + c3) * 16 + d) :: acc) with
                  | .ok (s, n) => .ok (s, n + 6)
                  | .error m => .error m
                | _, _, _, _ => .error "Invalid uXXXX escape"
              | _ => .error "Invalid uXXXX escape"
            else .error "Invalid escape"
      else if c.toNat < 32 then .error "Invalid control character"
      else
        match strBody fuel r (c :: acc) with
        | .ok (s, n) => .ok (s, n + 1)
        | .error m => .error m

/-! ## The JSON reader -/

/-- Strip a literal continuation (e.g. the "ull" of "null") from the
input, as Python's scanner does by slice comparison. -/
def dropLit : List Char → List Char → Option (List Char)
  | [], l => some l
  | w :: ws, c :: r => if c = w then dropLit ws r else none
  | _ :: _, [] => none

mutual

/-- Read one JSON value (fuelled; the callers always supply enough fuel,
see `jsonLoadsL`).  Leading whitespace is skipped.  Python's scanner
tries the number regex before the `NaN`/`Infinity`/`-Infinity` constants;
only the `-Infinity` case overlaps with it, hence the nested check in
the number branch's failure case. -/
def parseVal : Nat → List Char → Except String (Json × List Char)
  | 0, _ => .error "Expecting value"
  | fuel + 1, l =>
    match skipWs l with
    | [] => .error "Expecting value"
    | c :: r =>
      if c = lbrace then
        match skipWs r with
        | c2 :: r2 =>
          if c2 = rbrace then .ok (.obj [], r2)
          else
            match parseObjItems fuel (c2 :: r2) [] with
            | .ok (fs, rest) => .ok (.obj fs, rest)
            | .error e => .error e
        | [] => .error "Expecting property name enclosed in double quotes"
      else if c = '[' then
        match skipWs r with
        | c2 :: r2 =>
          if c2 = ']' then .ok (.arr [], r2)
          else
            match parseArrItems fuel (c2 :: r2) [] with
            | .ok (es, rest) => .ok (.arr es, rest)
            | .error e => .error e
        | [] => .error "Expecting value"
      else if c = '\"' then
        match strBody (r.length + 1) r [] with
        | .ok (s, n) => .ok (.str s, r.drop n)
        | .error e => .error e
      else if c = 'n' then
        match dropLit ['u', 'l', 'l'] r with
        | some rest => .ok (.null, rest)
        | none => .error "Expecting value"
      else if c = 't' then
        match dropLit ['r', 'u', 'e'] r with
        | some rest => .ok (.bool true, rest)
        | none => .error "Expecting value"
      else if c = 'f' then
        match dropLit ['a', 'l', 's', 'e'] r with
        | some rest => .ok (.bool false, rest)
        | none => .error "Expecting value"
      else if c = '-' ∨ c.isDigit then
        match parseNum (c :: r) with
        | .ok (q, rest) => .ok (.num q, rest)
        | .error e =>
          if c = '-' then
            match dropLit ['I', 'n', 'f', 'i', 'n', 'i', 't', 'y'] r with
            | some rest => .ok (.inf true, rest)
            | none => .error e
          else .error e
      else if c = 'N' then
        match dropLit ['a', 'N'] r with
        | some rest => .ok (.nan, rest)
        | none => .error "Expecting value"
      else if c = 'I' then
        match dropLit ['n', 'f', 'i', 'n', 'i', 't', 'y'] r with
        | some rest => .ok (.inf false, rest)
        | none => .error "Expecting value"
      else .error "Expecting value"

/-- Read the members of a JSON object after its opening brace (the input
never starts at a closing brace: `parseVal` handles the empty object). -/
def parseObjItems : Nat → List Char → List (String × Json) →
    Except String (List (String × Json) × List Char)
  | 0, _, _ => .error "Expecting property name enclosed in double quotes"
  | fuel + 1, l, acc =>
    match skipWs l with
    | [] => .error "Expecting property name enclosed in double quotes"
    | c :: r =>
      if c = '\"' then
        match strBody (r.length + 1) r [] with
        | .ok (k, n1) =>
          let r1 := r.drop n1
          match skipWs r1 with
          | [] => .error "Expecting colon delimiter"
          | c2 :: r2 =>
            if c2 = ':' then
              match parseVal fuel r2 with
              | .ok (v, r3) =>
                match skipWs r3 with
                | [] => .error "Expecting comma delimiter"
                | c3 :: r4 =>
                  if c3 = rbrace then .ok (acc ++ [(k, v)], r4)
                  else if c3 = ',' then parseObjItems fuel r4 (acc ++ [(k, v)])
                  else .error "Expecting comma delimiter"
              | .error e => .error e
            else .error "Expecting colon delimiter"
        | .error e => .error e
      else .error "Expecting property name enclosed in double quotes"

/-- Read the elements of a JSON array after its opening bracket (the
input never starts at a closing bracket: `parseVal` handles the empty
array). -/
def parseArrItems : Nat → List Char → List Json →
    Except String (List Json × List Char)
  | 0, _, _ => .error "Expecting value"
  | fuel + 1, l, acc =>
    match parseVal fuel l with
    | .ok (v, r) =>
      match skipWs r with
      | [] => .error "Expecting comma delimiter"
      | c :: r2 =>
        if c = ']' then .ok (acc ++ [v], r2)
        else if c = ',' then parseArrItems fuel r2 (acc ++ [v])
        else .error "Expecting comma delimiter"
    | .error e => .error e

end

/-- Model of Python `json.loads` on a character list: read one value,
then require only whitespace to remain ("Extra data" otherwise).  One
unit of fuel is consumed only together with at least one input
character, so `length + 1` units never run out. -/
def jsonLoadsL (l : List Char) : Except String Json :=
  match parseVal (l.length + 1) l with
  | .ok (v, rest) => if skipWs rest = [] then .ok v else .error "Extra data"
  | .error e => .error e

/-! ## Python builtins used by the extractor -/

/-- The single-quote character (used by Python `repr` of strings). -/
def squote : Char := Char.ofNat 39

mutual

/-- Python `repr` of a JSON-decoded value, to the extent the pipeline can
observe it (floats with a nonintegral value are shown as exact fractions;
no claim depends on their text). -/
def pyRepr : Json → String
  | .null => "None"
  | .bool b => if b then "True" else "False"
  | .num q => if q.den = 1 then toString q.num else toString q
  | .nan => "nan"
  | .inf neg => if neg then "-inf" else "inf"
  | .str s => squote.toString ++ s ++ squote.toString
  | .arr es => "[" ++ pyReprList es ++ "]"
  | .obj fs => lbrace.toString ++ pyReprFields fs ++ rbrace.toString

/-- Comma-joined `repr`s of a list's elements. -/
def pyReprList : List Json → String
  | [] => ""
  | [x] => pyRepr x
  | x :: y :: xs => pyRepr x ++ ", " ++ pyReprList (y :: xs)

/-- Comma-joined `repr`s of a dict's items. -/
def pyReprFields : List (String × Json) → String
  | [] => ""
  | [p] => squote.toString ++ p.1 ++ squote.toString ++ ": " ++ pyRepr p.2
  | p :: q :: ps =>
    squote.toString ++ p.1 ++ squote.toString ++ ": " ++ pyRepr p.2 ++ ", " ++
      pyReprFields (q :: ps)

end

/-- Python `str()` of a JSON-decoded value, as interpolated by the
f-string at line 307/320 of `revenue_agent.py`. -/
def pyStr : Json → String
  | .str s => s
  | v => pyRepr v

/-- Literal accepted by Python `float(str)` (after stripping): optional
sign, then either one of the case-insensitive words `inf`, `infinity`,
`nan`, or digits with an optional dot on either side and an optional
exponent.  Digit-group underscores are not modelled. -/
def floatLit (l : List Char) : Option PyFloat :=
  let sl : Bool × List Char :=
    match l with
    | c :: r => if c = '-' then (true, r) else if c = '+' then (false, r) else (false, c :: r)
    | [] => (false, [])
  let low := sl.2.map Char.toLower
  if low = ['i', 'n', 'f'] ∨ low = ['i', 'n', 'f', 'i', 'n', 'i', 't', 'y'] then
    some (.inf sl.1)
  else if low = ['n', 'a', 'n'] then some .nan
  else
  let ip := splitDigits sl.2
  let fp : List Char × List Char :=
    match ip.2 with
    | c :: r => if c = '.' then splitDigits r else ([], c :: r)
    | [] => ([], [])
  if ip.1 = [] ∧ fp.1 = [] then none
  else
    let ep := expPart fp.2
    if ep.2.2 = [] then
      let mant : ℤ := (digitsToNat (ip.1 ++ fp.1) : ℤ)
      let signed : ℤ := if sl.1 then -mant else mant
      some (.finite (if ep.2.1 = [] then mkRat signed (natPow10 fp.1.length)
        else if ep.1 then mkRat signed (natPow10 fp.1.length * natPow10 (digitsToNat ep.2.1))
        else mkRat (signed * (natPow10 (digitsToNat ep.2.1) : ℤ)) (natPow10 fp.1.length)))
    else none

/-- Python `float()` on a JSON-decoded value: numbers (including the
`NaN`/`Infinity` constants) pass through, bools become 0/1, strings are
parsed as float literals (`ValueError` if not), anything else is a
`TypeError`. -/
def pyFloat : Json → Except PyExc PyFloat
  | .num q => .ok (.finite q)
  | .nan => .ok .nan
  | .inf neg => .ok (.inf neg)
  | .bool b => .ok (if b then 1 else 0)
  | .str s =>
    match floatLit (pyStrip s).toList with
    | some q => .ok q
    | none => .error (.valueError ("could not convert string to float: " ++ s))
  | .null => .error (.typeError "float() argument must be a string or a real number, not NoneType")
  | .arr _ => .error (.typeError "float() argument must be a string or a real number, not list")
  | .obj _ => .error (.typeError "float() argument must be a string or a real number, not dict")

/-- Python `data.get(key, default)`: only a dict has `.get`; on anything
else the attribute access raises `AttributeError`. -/
def pyGet : Json → String → Json → Except PyExc Json
  | .obj fs, k, dflt => .ok ((lookupLast fs k).getD dflt)
  | .null, _, _ => .error (.attributeError "NoneType object has no attribute get")
  | .bool _, _, _ => .error (.attributeError "bool object has no attribute get")
  | .num _, _, _ => .error (.attributeError "number object has no attribute get")
  | .nan, _, _ => .error (.attributeError "float object has no attribute get")
  | .inf _, _, _ => .error (.attributeError "float object has no attribute get")
  | .str _, _, _ => .error (.attributeError "str object has no attribute get")
  | .arr _, _, _ => .error (.attributeError "list object has no attribute get")

/-! ## The regex match of line 284

`re.search` with the DOTALL pattern "open brace, anything, close brace"
(greedy) returns the substring from the first open brace that has a later
close brace, through the last close brace of the text.  If the first open
brace has no later close brace then no later open brace has one either,
so the search fails. -/

/-- Drop everything before the first open brace; `none` if there is no
open brace. -/
def dropBeforeBrace : List Char → Option (List Char)
  | [] => none
  | c :: r => if c = lbrace then some (c :: r) else dropBeforeBrace r

/-- Longest nonempty suffix-trimmed run ending at the last close brace of
the input; `none` if there is no close brace. -/
def takeThroughLastClose (u : List Char) : Option (List Char) :=
  let rev := u.reverse.dropWhile (fun c => !(c == rbrace))
  if rev = [] then none else some rev.reverse

/-- Model of `re.search` of the brace pattern with DOTALL on the
response, returning the matched substring. -/
def braceMatch (l : List Char) : Option (List Char) :=
  match dropBeforeBrace l with
  | some (c :: u) =>
    match takeThroughLastClose u with
    | some body => some (c :: body)
    | none => none
  | _ => none

/-! ## The extractor (lines 277-333 of `revenue_agent.py`)

The response-processing portion of
`DeepSeekRevenueAgent.extract_revenue_from_sources`: what the method does
with the model's free-text response (the spec's `Extractor.freeText`)
after `_call_deepseek` has returned it. -/

/-- Strategy 1's body (lines 284-307): field reads off the parsed dict,
local guard of the revenue coercion (`ValueError`/`TypeError` caught,
negative values dropped), and citation synthesis.  A non-dict makes the
first `.get` raise, which propagates. -/
def strat1Process (data : Json) : Except PyExc (Option PyFloat × String) := do
  let revenueJ ← pyGet data "revenue_usd" .null
  let sourceJ ← pyGet data "source_url" (.str "")
  let confJ ← pyGet data "confidence" (.str "low")
  let reasonJ ← pyGet data "reasoning" (.str "")
  let revenue : Option PyFloat :=
    match revenueJ with
    | .null => none
    | v =>
      match pyFloat v with
      | .ok q => if q < 0 then none else some q
      | .error _ => none
  pure (revenue, pyStr sourceJ ++ " (Confidence: " ++ pyStr confJ ++ ") - " ++ pyStr reasonJ)

/-- Strategy 2's body after a successful whole-text parse (lines
311-320): same field reads, but the revenue coercion is unguarded, so a
coercion failure propagates to the outer handler. -/
def strat2Process (data : Json) : Except PyExc (Option PyFloat × String) := do
  let revenueJ ← pyGet data "revenue_usd" .null
  let sourceJ ← pyGet data "source_url" (.str "")
  let confJ ← pyGet data "confidence" (.str "low")
  let reasonJ ← pyGet data "reasoning" (.str "")
  let revenue : Option PyFloat ←
    match revenueJ with
    | .null => pure none
    | v => do
      let q ← pyFloat v
      pure (some q)
  pure (revenue, pyStr sourceJ ++ " (Confidence: " ++ pyStr confJ ++ ") - " ++ pyStr reasonJ)

/-- Body of the inner `try` (lines 282-326): strategy 1 when the brace
regex matches (its `json.loads` failure raising `JSONDecodeError`),
otherwise strategy 2 (its `json.loads` failure only falling through,
line 321-322) and then strategy 3, the fallback message with the first
200 characters of the response. -/
def extractBody (response : String) : Except PyExc (Option PyFloat × String) :=
  match braceMatch response.toList with
  | some jl =>
    match jsonLoadsL jl with
    | .ok data => strat1Process data
    | .error m => .error (.jsonDecode m)
  | none =>
    match jsonLoadsL response.toList with
    | .ok data => strat2Process data
    | .error _ =>
      .ok (none, "Could not parse structured response: " ++ response.take 200 ++ "...")

/-- Response processing of `extract_revenue_from_sources` (lines
277-333): the empty-response guard, then the inner `try` with its two
handlers (`except json.JSONDecodeError` at line 328, `except Exception`
at line 331). -/
def extract_revenue_from_response (response : String) :
    Except PyExc (Option PyFloat × String) :=
  if response = "" then .ok (none, "Failed to get response from AI model")
  else
    match extractBody response with
    | .ok rc => .ok rc
    | .error (.jsonDecode m) => .ok (none, "Invalid JSON response: " ++ m)
    | .error e => .ok (none, "Error processing AI response: " ++ e.msg)

/-! ## The retry wrapper and status classification -/

/-- The exception classes caught by the `except` clause of
`_retry_api_call` (line 89): `requests.exceptions.RequestException` and
`APIError`. -/
def isRetryCaught : PyExc → Bool
  | .requestException _ => true
  | .apiError _ => true
  | _ => false

/-- Loop of `DeepSeekRevenueAgent._retry_api_call` (lines 84-98), made
explicit in the attempt index and the remaining iterations; returns the
outcome, the number of attempts made, and the list of slept delays. -/
def retry_go {α : Type} (func : Nat → Except PyExc α) (baseDelay : ℚ)
    (maxRetries : Nat) : Nat → Nat → Except PyExc α × Nat × List ℚ
  | attempt, 0 => (.error (.apiError "Unexpected error in retry logic"), attempt, [])
  | attempt, remaining + 1 =>
    match func attempt with
    | .ok a => (.ok a, attempt + 1, [])
    | .error e =>
      if isRetryCaught e then
        if attempt + 1 = maxRetries then
          (.error (.apiError ("API call failed after " ++ toString maxRetries ++
            " attempts: " ++ e.msg)), attempt + 1, [])
        else
          let d := baseDelay * 2 ^ attempt
          let rest := retry_go func baseDelay maxRetries (attempt + 1) remaining
          (rest.1, rest.2.1, d :: rest.2.2)
      else (.error e, attempt + 1, [])

/-- `DeepSeekRevenueAgent._retry_api_call(func, max_retries, base_delay)`
over a function given the attempt number. -/
def retry_api_call {α : Type} (func : Nat → Except PyExc α)
    (maxRetries : Nat) (baseDelay : ℚ) : Except PyExc α × Nat × List ℚ :=
  retry_go func baseDelay maxRetries 0 maxRetries

/-- An HTTP response, as far as `make_request` inspects one. -/
structure HttpResponse where
  status : Nat
  text : String
deriving Repr, DecidableEq

/-- The status classification of `_call_deepseek.make_request` (lines
119-141): 401, 429, 500 and other error statuses all raise `APIError`
(then `raise_for_status` is a no-op on what remains). -/
def make_request (resp : HttpResponse) : Except PyExc HttpResponse :=
  if resp.status = 401 then .error (.apiError "Invalid API key or unauthorized access")
  else if resp.status = 429 then .error (.apiError "Rate limit exceeded. Please try again later.")
  else if resp.status = 500 then .error (.apiError "Internal server error from OpenRouter API")
  else if 400 ≤ resp.status then
    .error (.apiError ("API request failed with status " ++ toString resp.status ++ ": " ++ resp.text))
  else .ok resp

/-! ## Tier assignment (`src/src/tools/tier_assignment.py`) -/

/-- `assign_company_tier` (lines 4-25): the canonical classifier, with
inclusive lower bounds evaluated top-down. -/
def assign_company_tier : Option PyFloat → String
  | none => "Unknown"
  | some r =>
    if r ≥ 1000000000 then "Super Platinum"
    else if r ≥ 500000000 then "Platinum"
    else if r ≥ 100000000 then "Diamond"
    else "Gold"

/-- The inline tier logic of `ExcelCompanyProcessor.process_companies`
(`excel_company_processor.py` lines 26-36), which uses a strict bound for
the top tier. -/
def excel_assign_tier : Option PyFloat → String
  | none => "Unknown"
  | some r =>
    if r > 1000000000 then "Super Platinum"
    else if r ≥ 500000000 then "Platinum"
    else if r ≥ 100000000 then "Diamond"
    else "Gold"

/-- Round a rational to an integer number of hundredths, half to even
(the rounding of Python's two-decimal fixed-point formatting, modelled at
rational precision). -/
def roundHundredths (q : ℚ) : ℤ :=
  let s := q * 100
  let fl := ⌊s⌋
  if s - fl < 1 / 2 then fl
  else if 1 / 2 < s - fl then fl + 1
  else if fl % 2 = 0 then fl else fl + 1

/-- Render an integer number of hundredths with two decimals. -/
def hundredthsToString (n : ℤ) : String :=
  (if n < 0 then "-" else "") ++ toString (n.natAbs / 100) ++ "." ++
    (if n.natAbs % 100 < 10 then "0" else "") ++ toString (n.natAbs % 100)

/-- Two-decimal fixed-point formatting (Python a:.2f at rational
precision; the comma-grouped variant of the sub-thousand branch never
groups anything, since its argument is below 1000). -/
def fmtFixed2 (q : ℚ) : String := hundredthsToString (roundHundredths q)

/-- Python a:.2f on a float: `nan` and the infinities print as their
words, regardless of the format spec. -/
def fmtFixed2Float : PyFloat → String
  | .finite q => fmtFixed2 q
  | .nan => "nan"
  | .inf neg => if neg then "-inf" else "inf"

/-- Division of a Python float by a positive finite constant (the only
divisions `format_revenue_display` performs): `nan` and the infinities
are absorbing. -/
def pyFloatDivPos : PyFloat → ℚ → PyFloat
  | .finite q, d => .finite (q / d)
  | .nan, _ => .nan
  | .inf neg, _ => .inf neg

/-- `format_revenue_display` (lines 28-48). -/
def format_revenue_display : Option PyFloat → String
  | none => "Not Available"
  | some r =>
    if r ≥ 1000000000 then "$" ++ fmtFixed2Float (pyFloatDivPos r 1000000000) ++ "B"
    else if r ≥ 1000000 then "$" ++ fmtFixed2Float (pyFloatDivPos r 1000000) ++ "M"
    else if r ≥ 1000 then "$" ++ fmtFixed2Float (pyFloatDivPos r 1000) ++ "K"
    else "$" ++ fmtFixed2Float r

/-- `get_tier_description` (lines 51-69). -/
def get_tier_description (tier : String) : String :=
  if tier = "Super Platinum" then "Annual revenue from operations > $1Bn"
  else if tier = "Platinum" then "Annual revenue from operations $500Mn to $1Bn"
  else if tier = "Diamond" then "Annual revenue from operations $100Mn to $500Mn"
  else if tier = "Gold" then "Annual revenue from operations below $100Mn"
  else if tier = "Unknown" then "Revenue information not available"
  else "Unknown tier"

/-! ## The per-company analysis (`analyze_company_revenue`, lines 343-404)

The two external effects (web search and model-call-plus-extraction) are
passed in as `Except`-valued functions; the timestamp is a parameter. -/

/-- The record `analyze_company_revenue` returns (the `error` key is
present only on the dead failure branch, `company_region` only after
`process_single_company` adds it; absence is `none`). -/
structure RevenueAnalysis where
  company_name : String
  company_domain : String
  estimated_revenue_usd : Option PyFloat
  citation : String
  search_results : String
  status : String
  timestamp : ℚ
  error : Option String := none
  company_region : Option String := none
deriving Repr, DecidableEq

/-- `DeepSeekRevenueAgent._validate_input` (lines 64-82): empty or
too-short company names raise `ValidationError`; domain problems only log
a warning. -/
def validate_input (companyName : String) (_companyDomain : String) :
    Except PyExc Unit :=
  if companyName = "" then
    .error (.validationError "Company name must be a non-empty string")
  else if (pyStrip companyName).length < 2 then
    .error (.validationError "Company name must be at least 2 characters long")
  else .ok ()

/-- The failure record of lines 395-404 (built when the outer handler of
`analyze_company_revenue` catches a non-`ValidationError`). -/
def analysisFailedRecord (companyName companyDomain : String) (e : PyExc)
    (now : ℚ) : RevenueAnalysis :=
  { company_name := companyName
    company_domain := companyDomain
    estimated_revenue_usd := none
    citation := "Analysis failed: " ++ e.msg
    search_results := ""
    status := "failed"
    timestamp := now
    error := some e.msg }

/-- `analyze_company_revenue` (lines 343-404): validate (a
`ValidationError` is re-raised, line 390-391), then search with its
failure degraded to a message (lines 361-366), then extract with its
failure degraded to a `None` revenue (lines 368-375), then build the
record whose status is `success` exactly when a revenue was found. -/
def analyze_company_revenue
    (search : String → String → Except PyExc String)
    (extract : String → String → Except PyExc (Option PyFloat × String))
    (now : ℚ) (companyName companyDomain : String) :
    Except PyExc RevenueAnalysis :=
  match validate_input companyName companyDomain with
  | .error e => .error e
  | .ok _ =>
    let searchResults : String :=
      match search companyName companyDomain with
      | .ok s => s
      | .error e => "Search failed: " ++ e.msg
    let rc : Option PyFloat × String :=
      match extract companyName searchResults with
      | .ok p => p
      | .error e => (none, "Revenue extraction failed: " ++ e.msg)
    .ok
      { company_name := companyName
        company_domain := companyDomain
        estimated_revenue_usd := rc.1
        citation := rc.2
        search_results := searchResults
        status := if rc.1.isSome then "success" else "partial"
        timestamp := now }

/-! ## The CSV batch processor (`src/src/processors/csv_processor.py`) -/

/-- One input row of the CSV (`Company Name`, `Company Domain`,
`Company Region`). -/
structure CompanyData where
  name : String
  domain : String
  region : String
deriving Repr, DecidableEq

/-- The result row both `analyze_company_tier` and the error branch of
`process_single_company` produce (the error branch adds the
`company_region` key; `analyze_company_tier`'s output has none). -/
structure TierRecord where
  company_name : String
  company_domain : String
  company_region : Option String := none
  estimated_revenue_usd : Option PyFloat
  revenue_display : String
  tier : String
  tier_description : String
  citation : String
deriving Repr, DecidableEq

/-- `analyze_company_tier` (`tier_assignment.py` lines 72-93). -/
def analyze_company_tier (a : RevenueAnalysis) : TierRecord :=
  { company_name := a.company_name
    company_domain := a.company_domain
    estimated_revenue_usd := a.estimated_revenue_usd
    revenue_display := format_revenue_display a.estimated_revenue_usd
    tier := assign_company_tier a.estimated_revenue_usd
    tier_description := get_tier_description (assign_company_tier a.estimated_revenue_usd)
    citation := a.citation }

/-- The error row built by the `except` branch of
`process_single_company` (lines 87-100). -/
def errorTierRecord (cd : CompanyData) (e : PyExc) : TierRecord :=
  { company_name := cd.name
    company_domain := cd.domain
    company_region := some cd.region
    estimated_revenue_usd := none
    revenue_display := "Error"
    tier := "Error"
    tier_description := "Processing failed: " ++ e.msg
    citation := "Error: " ++ e.msg }

/-- `CompanyRevenueProcessor.process_single_company` (lines 50-100): run
the revenue analysis (passed in as `analyze`), add the region, run the
tier analysis; any exception is caught and turned into the error row. -/
def process_single_company
    (analyze : String → String → Except PyExc RevenueAnalysis)
    (cd : CompanyData) : TierRecord :=
  match analyze cd.name cd.domain with
  | .ok a => analyze_company_tier { a with company_region := some cd.region }
  | .error e => errorTierRecord cd e

/-- `CompanyRevenueProcessor.process_companies_batch` (lines 102-131):
the sequential loop appending one result per company (the inter-company
sleeps do not affect the results). -/
def process_companies_batch
    (analyze : String → String → Except PyExc RevenueAnalysis)
    (companies : List CompanyData) : List TierRecord :=
  companies.map (process_single_company analyze)

/-! # Proof infrastructure

Suffix bookkeeping for the scanner: every reader returns a suffix of its
input, so a character found in what a reader saw is a character of the
original input. -/

theorem mem_of_suffix {α : Type} {a : α} {l₁ l₂ : List α}
    (h : l₁ <:+ l₂) (ha : a ∈ l₁) : a ∈ l₂ := by
  obtain ⟨t, rfl⟩ := h
  exact List.mem_append_right t ha

theorem suffix_tail {α : Type} (c : α) (l : List α) : l <:+ c :: l :=
  ⟨[c], rfl⟩

theorem dropWhile_suffix {α : Type} (p : α → Bool) (l : List α) :
    l.dropWhile p <:+ l :=
  ⟨l.takeWhile p, l.takeWhile_append_dropWhile p⟩

theorem skipWs_suffix (l : List Char) : skipWs l <:+ l :=
  dropWhile_suffix _ l

theorem splitDigits_suffix (l : List Char) : (splitDigits l).2 <:+ l :=
  dropWhile_suffix _ l

theorem intPart_suffix (l : List Char) : (intPart l).2 <:+ l := by
  unfold intPart
  match l with
  | [] => exact List.suffix_refl _
  | c :: r =>
    dsimp only
    split
    · exact suffix_tail c r
    · split
      · exact splitDigits_suffix _
      · exact List.suffix_refl _

theorem fracPart_suffix (l : List Char) : (fracPart l).2 <:+ l := by
  unfold fracPart
  match l with
  | [] => exact List.suffix_refl _
  | c :: r =>
    dsimp only
    split
    · split
      · exact List.suffix_refl _
      · exact (splitDigits_suffix r).trans (suffix_tail c r)
    · exact List.suffix_refl _

theorem expPart_suffix (l : List Char) : (expPart l).2.2 <:+ l := by
  unfold expPart
  match l with
  | [] => exact List.suffix_refl _
  | c :: r =>
    dsimp only
    split
    · match r with
      | [] => exact List.suffix_refl _
      | c2 :: r2 =>
        dsimp only
        split
        · split
          · exact List.suffix_refl _
          · exact ((splitDigits_suffix r2).trans (suffix_tail c2 r2)).trans (suffix_tail c _)
        · split
          · split
            · exact List.suffix_refl _
            · exact ((splitDigits_suffix r2).trans (suffix_tail c2 r2)).trans (suffix_tail c _)
          · split
            · exact List.suffix_refl _
            · exact (splitDigits_suffix _).trans (suffix_tail c _)
    · exact List.suffix_refl _

theorem parseNum_suffix {l r : List Char} {q : ℚ}
    (h : parseNum l = .ok (q, r)) : r <:+ l := by
  simp only [parseNum] at h
  split at h
  · simp at h
  · simp only [Except.ok.injEq, Prod.mk.injEq] at h
    obtain ⟨-, rfl⟩ := h
    refine (((expPart_suffix _).trans (fracPart_suffix _)).trans (intPart_suffix _)).trans ?_
    match l with
    | [] => exact List.suffix_refl _
    | c :: cs =>
      dsimp only
      split
      · exact suffix_tail c cs
      · exact List.suffix_refl _

theorem dropLit_suffix {w l r : List Char} (h : dropLit w l = some r) :
    r <:+ l := by
  induction w generalizing l with
  | nil =>
    simp only [dropLit, Option.some.injEq] at h
    exact h ▸ List.suffix_refl _
  | cons c cs ih =>
    match l with
    | [] => simp [dropLit] at h
    | x :: xs =>
      simp only [dropLit] at h
      split at h
      · exact (ih h).trans (suffix_tail x xs)
      · exact absurd h (by simp)

theorem skipWs_expose {l r1 : List Char} {c1 : Char} (hs : skipWs l = c1 :: r1)
    {x : List Char} (hx : x <:+ c1 :: r1) : x <:+ l :=
  hx.trans (hs ▸ skipWs_suffix l)

theorem parse_suffix : ∀ fuel : ℕ,
    (∀ l v r, parseVal fuel l = .ok (v, r) → r <:+ l) ∧
    (∀ l acc fs r, parseObjItems fuel l acc = .ok (fs, r) → r <:+ l) ∧
    (∀ l acc es r, parseArrItems fuel l acc = .ok (es, r) → r <:+ l) := by
  intro fuel
  induction fuel with
  | zero =>
    refine ⟨fun l v r h => ?_, fun l acc fs r h => ?_, fun l acc es r h => ?_⟩ <;>
      simp [parseVal, parseObjItems, parseArrItems] at h
  | succ n ih =>
    obtain ⟨ihv, iho, iha⟩ := ih
    refine ⟨fun l v r h => ?_, fun l acc fs r h => ?_, fun l acc es r h => ?_⟩
    · -- parseVal
      rw [parseVal.eq_2] at h
      rcases hs : skipWs l with _ | ⟨c, r1⟩ <;> rw [hs] at h
      · simp at h
      · dsimp only at h
        split at h
        · -- open brace
          rcases hs2 : skipWs r1 with _ | ⟨c2, r2⟩ <;> rw [hs2] at h
          · simp at h
          · dsimp only at h
            split at h
            · simp only [Except.ok.injEq, Prod.mk.injEq] at h
              obtain ⟨-, rfl⟩ := h
              exact skipWs_expose hs
                ((skipWs_expose hs2 (suffix_tail c2 r2)).trans (suffix_tail c r1))
            · rcases ho : parseObjItems n (c2 :: r2) [] with m | ⟨fs1, rest⟩ <;>
                rw [ho] at h
              · simp at h
              · dsimp only at h
                simp only [Except.ok.injEq, Prod.mk.injEq] at h
                obtain ⟨-, rfl⟩ := h
                exact skipWs_expose hs
                  ((skipWs_expose hs2 (iho _ _ _ _ ho)).trans (suffix_tail c r1))
        · split at h
          · -- open bracket
            rcases hs2 : skipWs r1 with _ | ⟨c2, r2⟩ <;> rw [hs2] at h
            · simp at h
            · dsimp only at h
              split at h
              · simp only [Except.ok.injEq, Prod.mk.injEq] at h
                obtain ⟨-, rfl⟩ := h
                exact skipWs_expose hs
                  ((skipWs_expose hs2 (suffix_tail c2 r2)).trans (suffix_tail c r1))
              · rcases ha : parseArrItems n (c2 :: r2) [] with m | ⟨es1, rest⟩ <;>
                  rw [ha] at h
                · simp at h
                · dsimp only at h
                  simp only [Except.ok.injEq, Prod.mk.injEq] at h
                  obtain ⟨-, rfl⟩ := h
                  exact skipWs_expose hs
                    ((skipWs_expose hs2 (iha _ _ _ _ ha)).trans (suffix_tail c r1))
          · split at h
            · -- string
              rcases hb : strBody (r1.length + 1) r1 [] with m | ⟨s1, n1⟩ <;>
                rw [hb] at h
              · simp at h
              · dsimp only at h
                simp only [Except.ok.injEq, Prod.mk.injEq] at h
                obtain ⟨-, rfl⟩ := h
                exact skipWs_expose hs ((List.drop_suffix n1 r1).trans (suffix_tail c r1))
            · split at h
              · -- null literal
                rcases hd : dropLit ['u', 'l', 'l'] r1 with _ | rest <;> rw [hd] at h
                · simp at h
                · dsimp only at h
                  simp only [Except.ok.injEq, Prod.mk.injEq] at h
                  obtain ⟨-, rfl⟩ := h
                  exact skipWs_expose hs ((dropLit_suffix hd).trans (suffix_tail c r1))
              · split at h
                · -- true literal
                  rcases hd : dropLit ['r', 'u', 'e'] r1 with _ | rest <;> rw [hd] at h
                  · simp at h
                  · dsimp only at h
                    simp only [Except.ok.injEq, Prod.mk.injEq] at h
                    obtain ⟨-, rfl⟩ := h
                    exact skipWs_expose hs ((dropLit_suffix hd).trans (suffix_tail c r1))
                · split at h
                  · -- false literal
                    rcases hd : dropLit ['a', 'l', 's', 'e'] r1 with _ | rest <;>
                      rw [hd] at h
                    · simp at h
                    · dsimp only at h
                      simp only [Except.ok.injEq, Prod.mk.injEq] at h
                      obtain ⟨-, rfl⟩ := h
                      exact skipWs_expose hs ((dropLit_suffix hd).trans (suffix_tail c r1))
                  · split at h
                    · -- number
                      rcases hn : parseNum (c :: r1) with m | ⟨q1, rest⟩ <;> rw [hn] at h
                      · dsimp only at h
                        split at h
                        · -- -Infinity, tried once the number scan fails
                          rcases hd : dropLit ['I', 'n', 'f', 'i', 'n', 'i', 't', 'y'] r1
                              with _ | rest <;> rw [hd] at h
                          · simp at h
                          · dsimp only at h
                            simp only [Except.ok.injEq, Prod.mk.injEq] at h
                            obtain ⟨-, rfl⟩ := h
                            exact skipWs_expose hs
                              ((dropLit_suffix hd).trans (suffix_tail c r1))
                        · simp at h
                      · dsimp only at h
                        simp only [Except.ok.injEq, Prod.mk.injEq] at h
                        obtain ⟨-, rfl⟩ := h
                        exact skipWs_expose hs (parseNum_suffix hn)
                    · split at h
                      · -- NaN literal
                        rcases hd : dropLit ['a', 'N'] r1 with _ | rest <;> rw [hd] at h
                        · simp at h
                        · dsimp only at h
                          simp only [Except.ok.injEq, Prod.mk.injEq] at h
                          obtain ⟨-, rfl⟩ := h
                          exact skipWs_expose hs
                            ((dropLit_suffix hd).trans (suffix_tail c r1))
                      · split at h
                        · -- Infinity literal
                          rcases hd : dropLit ['n', 'f', 'i', 'n', 'i', 't', 'y'] r1
                              with _ | rest <;> rw [hd] at h
                          · simp at h
                          · dsimp only at h
                            simp only [Except.ok.injEq, Prod.mk.injEq] at h
                            obtain ⟨-, rfl⟩ := h
                            exact skipWs_expose hs
                              ((dropLit_suffix hd).trans (suffix_tail c r1))
                        · simp at h
    · -- parseObjItems
      rw [parseObjItems.eq_2] at h
      rcases hs : skipWs l with _ | ⟨c, r1⟩ <;> rw [hs] at h
      · simp at h
      · dsimp only at h
        split at h
        · rcases hb : strBody (r1.length + 1) r1 [] with m | ⟨k1, n1⟩ <;> rw [hb] at h
          · simp at h
          · dsimp only at h
            rcases hs2 : skipWs (r1.drop n1) with _ | ⟨c2, r2⟩ <;> rw [hs2] at h
            · simp at h
            · dsimp only at h
              split at h
              · rcases hv : parseVal n r2 with m | ⟨v1, r3⟩ <;> rw [hv] at h
                · simp at h
                · dsimp only at h
                  rcases hs3 : skipWs r3 with _ | ⟨c3, r4⟩ <;> rw [hs3] at h
                  · simp at h
                  · dsimp only at h
                    have base : ∀ x : List Char, x <:+ c3 :: r4 → x <:+ l := by
                      intro x hx
                      refine skipWs_expose hs (List.IsSuffix.trans ?_ (suffix_tail c r1))
                      refine List.IsSuffix.trans ?_ (List.drop_suffix n1 r1)
                      refine skipWs_expose hs2 (List.IsSuffix.trans ?_ (suffix_tail c2 r2))
                      exact (skipWs_expose hs3 hx).trans (ihv _ _ _ hv)
                    split at h
                    · simp only [Except.ok.injEq, Prod.mk.injEq] at h
                      obtain ⟨-, rfl⟩ := h
                      exact base r4 (suffix_tail c3 r4)
                    · split at h
                      · exact base r ((iho _ _ _ _ h).trans (suffix_tail c3 r4))
                      · simp at h
              · simp at h
        · simp at h
    · -- parseArrItems
      rw [parseArrItems.eq_2] at h
      rcases hv : parseVal n l with m | ⟨v1, r1⟩ <;> rw [hv] at h
      · simp at h
      · dsimp only at h
        rcases hs : skipWs r1 with _ | ⟨c, r2⟩ <;> rw [hs] at h
        · simp at h
        · dsimp only at h
          have base : ∀ x : List Char, x <:+ c :: r2 → x <:+ l := fun x hx =>
            (skipWs_expose hs hx).trans (ihv _ _ _ hv)
          split at h
          · simp only [Except.ok.injEq, Prod.mk.injEq] at h
            obtain ⟨-, rfl⟩ := h
            exact base r2 (suffix_tail c r2)
          · split at h
            · exact base r ((iha _ _ _ _ h).trans (suffix_tail c r2))
            · simp at h


theorem parseObjItems_rbrace : ∀ (fuel : ℕ) (l : List Char)
    (acc fs : List (String × Json)) (r : List Char),
    parseObjItems fuel l acc = .ok (fs, r) → rbrace ∈ l := by
  intro fuel
  induction fuel with
  | zero =>
    intro l acc fs r h
    simp [parseObjItems] at h
  | succ n ih =>
    intro l acc fs r h
    rw [parseObjItems.eq_2] at h
    rcases hs : skipWs l with _ | ⟨c, r1⟩ <;> rw [hs] at h
    · simp at h
    · dsimp only at h
      split at h
      · rcases hb : strBody (r1.length + 1) r1 [] with m | ⟨k1, n1⟩ <;> rw [hb] at h
        · simp at h
        · dsimp only at h
          rcases hs2 : skipWs (r1.drop n1) with _ | ⟨c2, r2⟩ <;> rw [hs2] at h
          · simp at h
          · dsimp only at h
            split at h
            · rcases hv : parseVal n r2 with m | ⟨v1, r3⟩ <;> rw [hv] at h
              · simp at h
              · dsimp only at h
                rcases hs3 : skipWs r3 with _ | ⟨c3, r4⟩ <;> rw [hs3] at h
                · simp at h
                · dsimp only at h
                  have s1 : (c3 :: r4 : List Char) <:+ l := by
                    have a1 : (c3 :: r4 : List Char) <:+ r3 := by
                      rw [← hs3]; exact skipWs_suffix r3
                    have a2 : r3 <:+ c2 :: r2 :=
                      ((parse_suffix n).1 _ _ _ hv).trans (suffix_tail c2 r2)
                    have a3 : (c2 :: r2 : List Char) <:+ r1 := by
                      rw [← hs2]
                      exact (skipWs_suffix _).trans (List.drop_suffix n1 r1)
                    exact skipWs_expose hs (((a1.trans a2).trans a3).trans (suffix_tail c r1))
                  by_cases h3 : c3 = rbrace
                  · exact mem_of_suffix s1 (h3 ▸ List.mem_cons_self c3 r4)
                  · rw [if_neg h3] at h
                    by_cases h4 : c3 = ','
                    · rw [if_pos h4] at h
                      exact mem_of_suffix s1 (List.mem_cons_of_mem c3 (ih _ _ _ _ h))
                    · rw [if_neg h4] at h
                      simp at h
            · simp at h
      · simp at h

theorem parseVal_obj_shape : ∀ (fuel : ℕ) (l : List Char)
    (fs : List (String × Json)) (r : List Char),
    parseVal fuel l = .ok (.obj fs, r) → ∃ u, skipWs l = lbrace :: u ∧ rbrace ∈ u := by
  intro fuel l fs r h
  cases fuel with
  | zero => simp [parseVal] at h
  | succ n =>
    rw [parseVal.eq_2] at h
    rcases hs : skipWs l with _ | ⟨c, r1⟩ <;> rw [hs] at h
    · simp at h
    · dsimp only at h
      by_cases hc : c = lbrace
      · subst hc
        rw [if_pos rfl] at h
        refine ⟨r1, by simp [hs], ?_⟩
        rcases hs2 : skipWs r1 with _ | ⟨c2, r2⟩ <;> rw [hs2] at h
        · simp at h
        · dsimp only at h
          by_cases hc2 : c2 = rbrace
          · refine mem_of_suffix (skipWs_suffix r1) ?_
            rw [hs2, hc2]
            exact List.mem_cons_self _ _
          · rw [if_neg hc2] at h
            rcases ho : parseObjItems n (c2 :: r2) [] with m | ⟨fs1, rest⟩ <;> rw [ho] at h
            · simp at h
            · refine mem_of_suffix (skipWs_suffix r1) ?_
              rw [hs2]
              exact parseObjItems_rbrace n (c2 :: r2) [] fs1 rest ho
      · rw [if_neg hc] at h
        repeat' split at h
        all_goals simp at h


/-! ## Facts about the brace regex -/

theorem dropBeforeBrace_append {p1 : List Char} (l : List Char)
    (h : lbrace ∉ p1) : dropBeforeBrace (p1 ++ l) = dropBeforeBrace l := by
  induction p1 with
  | nil => rfl
  | cons c cs ih =>
    have hc : ¬ c = lbrace := fun hcc => h (hcc ▸ List.mem_cons_self c cs)
    simp only [List.cons_append, dropBeforeBrace, if_neg hc]
    exact ih fun hm => h (List.mem_cons_of_mem c hm)

theorem dropBeforeBrace_lbrace (u : List Char) :
    dropBeforeBrace (lbrace :: u) = some (lbrace :: u) := by
  simp [dropBeforeBrace]

theorem dropWhile_ne_nil_of_mem {p : Char → Bool} {l : List Char} {a : Char}
    (ha : a ∈ l) (hp : p a = false) : l.dropWhile p ≠ [] := by
  induction l with
  | nil => cases ha
  | cons c cs ih =>
    rw [List.dropWhile_cons]
    rcases List.mem_cons.mp ha with rfl | hm
    · rw [hp]
      simp
    · split
      · exact ih hm
      · simp

theorem takeThroughLastClose_of_mem {u : List Char} (h : rbrace ∈ u) :
    ∃ b, takeThroughLastClose u = some b := by
  unfold takeThroughLastClose
  have hne : u.reverse.dropWhile (fun c => !(c == rbrace)) ≠ [] :=
    dropWhile_ne_nil_of_mem (List.mem_reverse.mpr h) (by simp)
  simp only [if_neg hne]
  exact ⟨_, rfl⟩

theorem takeThroughLastClose_closed {mid p2 : List Char} (h2 : rbrace ∉ p2) :
    takeThroughLastClose (mid ++ [rbrace] ++ p2) = some (mid ++ [rbrace]) := by
  unfold takeThroughLastClose
  have hall : p2.reverse.dropWhile (fun c => !(c == rbrace)) = [] := by
    rw [List.dropWhile_eq_nil_iff]
    intro x hx
    have : x ≠ rbrace := fun hxx => h2 (hxx ▸ List.mem_reverse.mp hx)
    simp [this]
  have hrev : (mid ++ [rbrace] ++ p2).reverse.dropWhile (fun c => !(c == rbrace))
      = rbrace :: mid.reverse := by
    rw [List.reverse_append, List.reverse_append, List.dropWhile_append]
    rw [hall]
    simp [List.dropWhile_cons]
  rw [hrev]
  simp

theorem braceMatch_embed {p1 mid p2 : List Char}
    (h1 : lbrace ∉ p1) (h2 : rbrace ∉ p2) :
    braceMatch (p1 ++ (lbrace :: (mid ++ [rbrace])) ++ p2)
      = some (lbrace :: (mid ++ [rbrace])) := by
  have hassoc : p1 ++ (lbrace :: (mid ++ [rbrace])) ++ p2
      = p1 ++ (lbrace :: (mid ++ [rbrace] ++ p2)) := by simp
  rw [hassoc]
  unfold braceMatch
  rw [dropBeforeBrace_append _ h1, dropBeforeBrace_lbrace]
  dsimp only
  rw [takeThroughLastClose_closed h2]

theorem braceMatch_ne_none {l u : List Char} (hs : skipWs l = lbrace :: u)
    (hm : rbrace ∈ u) : braceMatch l ≠ none := by
  have hsplit : l = l.takeWhile isWsChar ++ (lbrace :: u) := by
    rw [← hs]
    exact (List.takeWhile_append_dropWhile _ _).symm
  have hws : lbrace ∉ l.takeWhile isWsChar := by
    intro hmem
    have := List.mem_takeWhile_imp hmem
    simp [isWsChar, lbrace] at this
  obtain ⟨b, hb⟩ := takeThroughLastClose_of_mem hm
  rw [hsplit]
  unfold braceMatch
  rw [dropBeforeBrace_append _ hws, dropBeforeBrace_lbrace]
  dsimp only
  rw [hb]
  simp


/-! ## Evaluation of the extractor's control flow -/

theorem jsonLoadsL_obj_braceMatch {l : List Char} {fs : List (String × Json)}
    (h : jsonLoadsL l = .ok (.obj fs)) : braceMatch l ≠ none := by
  unfold jsonLoadsL at h
  rcases hv : parseVal (l.length + 1) l with m | ⟨v, rest⟩ <;> rw [hv] at h
  · simp at h
  · dsimp only at h
    split at h
    · simp only [Except.ok.injEq] at h
      subst h
      obtain ⟨u, hs, hm⟩ := parseVal_obj_shape _ _ _ _ hv
      exact braceMatch_ne_none hs hm
    · simp at h

theorem extractBody_strat1 {s : String} {jl : List Char} {data : Json}
    (hb : braceMatch s.toList = some jl) (hj : jsonLoadsL jl = .ok data) :
    extractBody s = strat1Process data := by
  unfold extractBody
  rw [hb]
  dsimp only
  rw [hj]

theorem extractBody_strat1_err {s : String} {jl : List Char} {m : String}
    (hb : braceMatch s.toList = some jl) (hj : jsonLoadsL jl = .error m) :
    extractBody s = .error (.jsonDecode m) := by
  unfold extractBody
  rw [hb]
  dsimp only
  rw [hj]

theorem extractBody_strat2 {s : String} {data : Json}
    (hb : braceMatch s.toList = none) (hj : jsonLoadsL s.toList = .ok data) :
    extractBody s = strat2Process data := by
  unfold extractBody
  rw [hb]
  dsimp only
  rw [hj]

theorem extractBody_strat3 {s : String} {m : String}
    (hb : braceMatch s.toList = none) (hj : jsonLoadsL s.toList = .error m) :
    extractBody s = .ok (none,
      "Could not parse structured response: " ++ s.take 200 ++ "...") := by
  unfold extractBody
  rw [hb]
  dsimp only
  rw [hj]

theorem extract_of_body_ok {s : String} {rc : Option PyFloat × String}
    (h0 : s ≠ "") (hb : extractBody s = .ok rc) :
    extract_revenue_from_response s = .ok rc := by
  unfold extract_revenue_from_response
  rw [if_neg h0, hb]

/-- The citation the two inner handlers of lines 328-333 produce for an
escaped exception. -/
def handlerMsg : PyExc → String
  | .jsonDecode m => "Invalid JSON response: " ++ m
  | e => "Error processing AI response: " ++ e.msg

theorem extract_handler {s : String} {e : PyExc}
    (h0 : s ≠ "") (hb : extractBody s = .error e) :
    extract_revenue_from_response s = .ok (none, handlerMsg e) := by
  unfold extract_revenue_from_response
  rw [if_neg h0, hb]
  cases e <;> rfl

theorem strat1_nonneg_key {v : Json} {r : PyFloat}
    (h : (match pyFloat v with
      | .ok q => if q < 0 then none else some q
      | .error _ => none) = some r) : ¬ r < 0 := by
  rcases hf : pyFloat v with m | q <;> rw [hf] at h
  · simp at h
  · dsimp only at h
    split at h
    · simp at h
    · next hlt =>
      simp only [Option.some.injEq] at h
      subst h
      exact hlt

theorem strat1_nonneg {data : Json} {rc : Option PyFloat × String}
    (h : strat1Process data = .ok rc) : ∀ r, rc.1 = some r → ¬ r < 0 := by
  intro r hr
  cases data with
  | obj fs =>
    simp only [strat1Process, pyGet, Except.bind, bind, pure, Except.pure,
      Except.ok.injEq] at h
    rw [← h] at hr
    dsimp only at hr
    rcases hJ : (lookupLast fs "revenue_usd").getD Json.null with
      _ | b | q | _ | ng | st | es | fs2 <;> rw [hJ] at hr <;> dsimp only at hr
    · simp at hr
    · exact @strat1_nonneg_key (Json.bool b) r hr
    · exact @strat1_nonneg_key (Json.num q) r hr
    · exact @strat1_nonneg_key Json.nan r hr
    · exact @strat1_nonneg_key (Json.inf ng) r hr
    · exact @strat1_nonneg_key (Json.str st) r hr
    · exact @strat1_nonneg_key (Json.arr es) r hr
    · exact @strat1_nonneg_key (Json.obj fs2) r hr
  | null => simp [strat1Process, pyGet, Except.bind, bind] at h
  | bool b => simp [strat1Process, pyGet, Except.bind, bind] at h
  | num q => simp [strat1Process, pyGet, Except.bind, bind] at h
  | nan => simp [strat1Process, pyGet, Except.bind, bind] at h
  | inf ng => simp [strat1Process, pyGet, Except.bind, bind] at h
  | str st => simp [strat1Process, pyGet, Except.bind, bind] at h
  | arr es => simp [strat1Process, pyGet, Except.bind, bind] at h

theorem strat2_obj_only {data : Json} {rc : Option PyFloat × String}
    (h : strat2Process data = .ok rc) : ∃ fs, data = .obj fs := by
  cases data with
  | obj fs => exact ⟨fs, rfl⟩
  | null => simp [strat2Process, pyGet, Except.bind, bind] at h
  | bool b => simp [strat2Process, pyGet, Except.bind, bind] at h
  | num q => simp [strat2Process, pyGet, Except.bind, bind] at h
  | nan => simp [strat2Process, pyGet, Except.bind, bind] at h
  | inf ng => simp [strat2Process, pyGet, Except.bind, bind] at h
  | str st => simp [strat2Process, pyGet, Except.bind, bind] at h
  | arr es => simp [strat2Process, pyGet, Except.bind, bind] at h


/-! # The claims -/

/-- C6 counterexample: the claim sends 999,999,999 to Diamond, but the
classifier's second branch (at least 500 million) catches it first, so
`assign_company_tier` returns Platinum. -/
theorem claim_C6_cex : assign_company_tier (some 999999999) = "Platinum"
    ∧ assign_company_tier (some 999999999) ≠ "Diamond" := by
  constructor
  · decide
  · decide

/-- C6 (amended): `assign_company_tier`, with inclusive lower bounds
evaluated top-down and first match winning, maps None to Unknown,
99,999,999 to Gold, 999,999,999 to Platinum (it is at least 500 million),
500,000,000 to Platinum, and exactly 1,000,000,000 to Super Platinum. -/
theorem claim_C6 : assign_company_tier none = "Unknown"
    ∧ assign_company_tier (some 99999999) = "Gold"
    ∧ assign_company_tier (some 999999999) = "Platinum"
    ∧ assign_company_tier (some 500000000) = "Platinum"
    ∧ assign_company_tier (some 1000000000) = "Super Platinum" := by
  refine ⟨rfl, ?_, ?_, ?_, ?_⟩ <;> decide

/-- C7 counterexample: at exactly 1,000,000,000 the canonical classifier
answers Super Platinum while the inline logic of
`ExcelCompanyProcessor.process_companies` (strict greater-than) answers
Platinum, so the two sites do not agree there. -/
theorem claim_C7_cex : assign_company_tier (some 1000000000) = "Super Platinum"
    ∧ excel_assign_tier (some 1000000000) = "Platinum"
    ∧ assign_company_tier (some 1000000000)
        ≠ excel_assign_tier (some 1000000000) := by
  refine ⟨?_, ?_, ?_⟩
  · decide
  · decide
  · decide

/-- C7 (amended): the canonical classifier `assign_company_tier` and the
inline tier logic of `ExcelCompanyProcessor.process_companies` assign the
same tier for every revenue value except exactly 1,000,000,000, where the
canonical classifier says Super Platinum and the inline logic (which uses
a strict bound) says Platinum. -/
theorem claim_C7 (v : Option PyFloat) (h : v ≠ some 1000000000) :
    assign_company_tier v = excel_assign_tier v := by
  cases v with
  | none => rfl
  | some r =>
    cases r with
    | nan => rfl
    | inf ng => cases ng <;> rfl
    | finite q =>
      have hne : q ≠ 1000000000 := fun he => h (by rw [he]; rfl)
      simp only [assign_company_tier, excel_assign_tier, ofNat_eq_finite,
        ge_iff_le, finite_le_finite, gt_iff_lt, finite_lt_finite]
      by_cases h1 : (1000000000 : ℚ) ≤ q
      · have h3 : (1000000000 : ℚ) < q := lt_of_le_of_ne h1 (Ne.symm hne)
        rw [if_pos h1, if_pos h3]
      · have h3 : ¬ (1000000000 : ℚ) < q := fun hc => h1 hc.le
        rw [if_neg h1, if_neg h3]

/-- C7 witness: a value away from the boundary, classified identically by
both sites. -/
theorem claim_C7_witness :
    assign_company_tier (some 42) = excel_assign_tier (some 42) :=
  claim_C7 (some 42) (by decide)

/-- C2 counterexample: a response with status 401 makes `make_request`
raise `APIError`, which the retry wrapper catches and retries — the call
runs 3 attempts (sleeping 1 and 2 between them) instead of failing
immediately. -/
theorem claim_C2_cex :
    retry_api_call (fun _ => make_request { status := 401, text := "" }) 3 1
      = (.error (.apiError
          "API call failed after 3 attempts: Invalid API key or unauthorized access"),
        3, [1, 2])
    ∧ (3 : ℕ) ≠ 1 := by
  constructor
  · simp only [retry_api_call, retry_go, make_request, isRetryCaught]
    norm_num
    rfl
  · decide

/-- C2 (amended): a 401 response raises
`APIError("Invalid API key or unauthorized access")`, and `APIError` is
one of the classes the retry wrapper catches, so a 401 IS retried exactly
like a transient transport failure: 3 attempts, then
`APIError("API call failed after 3 attempts: ...")`.  Only exceptions
outside `RequestException`/`APIError` — such as the
`DataProcessingError` raised for a malformed response shape, which is
checked after the retry loop — escape the wrapper unretried, after a
single attempt. -/
theorem claim_C2 {α : Type} (e : PyExc) :
    (isRetryCaught e = true →
      retry_api_call (fun _ => (.error e : Except PyExc α)) 3 1
        = (.error (.apiError ("API call failed after 3 attempts: " ++ e.msg)),
          3, [1, 2]))
    ∧ (isRetryCaught e = false →
      retry_api_call (fun _ => (.error e : Except PyExc α)) 3 1
        = (.error e, 1, []))
    ∧ make_request { status := 401, text := "" }
        = .error (.apiError "Invalid API key or unauthorized access") := by
  refine ⟨fun he => ?_, fun he => ?_, rfl⟩
  · simp only [retry_api_call, retry_go, he, if_true]
    norm_num
    rw [show ("API call failed after " ++ toString 3 ++ " attempts: " : String)
      = "API call failed after 3 attempts: " from rfl]
  · simp only [retry_api_call, retry_go, he, if_false]
    norm_num

/-- C2 witness: the 401 `APIError` is retried to exhaustion; the
malformed-shape `DataProcessingError` escapes after one attempt. -/
theorem claim_C2_witness :
    retry_api_call (fun _ =>
        (.error (.apiError "Invalid API key or unauthorized access")
          : Except PyExc HttpResponse)) 3 1
      = (.error (.apiError
          "API call failed after 3 attempts: Invalid API key or unauthorized access"),
        3, [1, 2])
    ∧ retry_api_call (fun _ =>
        (.error (.dataProcessingError "Invalid API response: missing 'choices' field")
          : Except PyExc HttpResponse)) 3 1
      = (.error (.dataProcessingError "Invalid API response: missing 'choices' field"),
        1, []) :=
  ⟨(claim_C2 (.apiError "Invalid API key or unauthorized access")).1 rfl,
    (claim_C2 (.dataProcessingError "Invalid API response: missing 'choices' field")).2.1 rfl⟩

/-- C3 counterexample: with a function that always raises a transient
transport error, the retry wrapper sleeps only twice — delays [1, 2] —
because the third (final) attempt raises instead of sleeping; the
claimed delay list [1, 2, 4] is wrong. -/
theorem claim_C3_cex :
    (retry_api_call (fun _ =>
        (.error (.requestException "Connection error") : Except PyExc HttpResponse))
      3 1).2.2 = [1, 2]
    ∧ (retry_api_call (fun _ =>
        (.error (.requestException "Connection error") : Except PyExc HttpResponse))
      3 1).2.2 ≠ [1, 2, 4] := by
  constructor
  · simp only [retry_api_call, retry_go, isRetryCaught]
    norm_num
  · simp only [retry_api_call, retry_go, isRetryCaught]
    norm_num

/-- C3 (amended): given a call that raises a transient transport error on
every attempt, `_retry_api_call` makes exactly 3 attempts before
surfacing `APIError`, with exponential backoff starting at 1: it sleeps 1
and 2 time units between consecutive attempts (there is no sleep after
the last attempt, so no 4-unit delay occurs). -/
theorem claim_C3 {α : Type} (e : PyExc) (he : isRetryCaught e = true) :
    retry_api_call (fun _ => (.error e : Except PyExc α)) 3 1
      = (.error (.apiError ("API call failed after 3 attempts: " ++ e.msg)),
        3, [1, 2]) := by
  simp only [retry_api_call, retry_go, he]
  norm_num
  rw [show ("API call failed after " ++ toString 3 ++ " attempts: " : String)
    = "API call failed after 3 attempts: " from rfl]

/-- C3 witness: the bound at a concrete transient error. -/
theorem claim_C3_witness :
    retry_api_call (fun _ =>
        (.error (.requestException "Connection error: Unable to connect to the API")
          : Except PyExc HttpResponse)) 3 1
      = (.error (.apiError
          ("API call failed after 3 attempts: Connection error: Unable to connect to the API")),
        3, [1, 2]) :=
  claim_C3 (.requestException "Connection error: Unable to connect to the API") rfl


/-- C1 counterexample: for the response "\x7bbad\x7d" the brace regex
matches and its parse fails; the claim then demands a whole-text parse
attempt and the citation "could not parse structured response: " plus the
first 200 characters, but the code returns the line-328 handler's message
"Invalid JSON response: ..." instead (and never attempts the whole-text
parse). -/
theorem claim_C1_cex :
    extract_revenue_from_response "\x7bbad\x7d"
      = .ok (none,
        "Invalid JSON response: Expecting property name enclosed in double quotes")
    ∧ ("Invalid JSON response: Expecting property name enclosed in double quotes"
        ≠ "could not parse structured response: \x7bbad\x7d")
    ∧ ("Invalid JSON response: Expecting property name enclosed in double quotes"
        ≠ "Could not parse structured response: \x7bbad\x7d...") := by
  refine ⟨rfl, ?_, ?_⟩ <;> decide

/-- C1 (amended): the fallback chain of the response processing is: step 1
greedily matches from the first open brace to the last close brace and
parses the match as JSON; the whole-text parse (step 2) is attempted only
when step 1 yields NO match; when step 1's match exists but its parse
fails, the function immediately returns None with a citation
"Invalid JSON response: " plus the parse error, without attempting the
whole-text parse; and only on a nonempty response with no brace match
whose whole-text parse also fails does it return None with the citation
"Could not parse structured response: " plus the first 200 characters of
the response plus "...". -/
theorem claim_C1 (s : String) :
    (∀ jl m, braceMatch s.toList = some jl → jsonLoadsL jl = .error m →
      extract_revenue_from_response s = .ok (none, "Invalid JSON response: " ++ m))
    ∧ (s ≠ "" → braceMatch s.toList = none →
      (∀ v, jsonLoadsL s.toList ≠ .ok v) →
      extract_revenue_from_response s
        = .ok (none, "Could not parse structured response: " ++ s.take 200 ++ "...")) := by
  constructor
  · intro jl m hb hj
    have h0 : s ≠ "" := by
      intro he
      subst he
      rw [show braceMatch ("".toList) = (none : Option (List Char)) from rfl] at hb
      cases hb
    exact extract_handler h0 (extractBody_strat1_err hb hj)
  · intro h0 hb hj
    rcases hload : jsonLoadsL s.toList with m | v
    · exact extract_of_body_ok h0 (extractBody_strat3 hb hload)
    · exact absurd hload (hj v)

set_option maxRecDepth 10000 in
/-- C1 witness: the matched-but-invalid case on "\x7bbad\x7d" and the
no-match-and-invalid case on "garbage". -/
theorem claim_C1_witness :
    extract_revenue_from_response "\x7bbad\x7d"
      = .ok (none,
        "Invalid JSON response: Expecting property name enclosed in double quotes")
    ∧ extract_revenue_from_response "garbage"
      = .ok (none, "Could not parse structured response: garbage...") := by
  constructor
  · exact (claim_C1 "\x7bbad\x7d").1 ("\x7bbad\x7d".toList)
      "Expecting property name enclosed in double quotes" rfl rfl
  · exact (claim_C1 "garbage").2 (by decide) rfl
      (fun v hv => by
        rw [show jsonLoadsL ("garbage".toList) = .error "Expecting value" from rfl] at hv
        cases hv)

/-- C4: the response processing of `extract_revenue_from_sources` is
total over the response text: for any string — garbage without braces,
truncated JSON, the empty string — it returns a value (never an escaped
exception), and whenever there is no brace match and the whole text is
not valid JSON either, the returned revenue is None (paired with a
message). -/
theorem claim_C4 (s : String) :
    ∃ rc, extract_revenue_from_response s = .ok rc ∧
      (braceMatch s.toList = none → (∀ v, jsonLoadsL s.toList ≠ .ok v) →
        rc.1 = none) := by
  by_cases h0 : s = ""
  · subst h0
    exact ⟨(none, "Failed to get response from AI model"), rfl, fun _ _ => rfl⟩
  · rcases hb : braceMatch s.toList with _ | jl
    · rcases hj : jsonLoadsL s.toList with m | data
      · exact ⟨_, extract_of_body_ok h0 (extractBody_strat3 hb hj), fun _ _ => rfl⟩
      · rcases hp : strat2Process data with e | rc
        · exact ⟨_, extract_handler h0 (by rw [extractBody_strat2 hb hj, hp]),
            fun _ _ => rfl⟩
        · exact ⟨rc, extract_of_body_ok h0 (by rw [extractBody_strat2 hb hj, hp]),
            fun _ habs => absurd rfl (habs data)⟩
    · rcases hj : jsonLoadsL jl with m | data
      · exact ⟨_, extract_handler h0 (extractBody_strat1_err hb hj),
          fun _ _ => rfl⟩
      · rcases hp : strat1Process data with e | rc
        · exact ⟨_, extract_handler h0 (by rw [extractBody_strat1 hb hj, hp]),
            fun _ _ => rfl⟩
        · exact ⟨rc, extract_of_body_ok h0 (by rw [extractBody_strat1 hb hj, hp]),
            fun hb2 _ => Option.noConfusion hb2⟩

/-- C4 witness: totality at the empty string, where the result is None
with the empty-response message. -/
theorem claim_C4_witness :
    ∃ rc, extract_revenue_from_response "" = .ok rc ∧
      (braceMatch "".toList = none → (∀ v, jsonLoadsL "".toList ≠ .ok v) →
        rc.1 = none) :=
  claim_C4 ""


/-- C5 counterexample: a well-formed JSON object embedded in prose whose
trailing prose contains a close brace.  The greedy match runs to that
last close brace, its parse fails with "Extra data", and the extractor
returns None — while a direct parse of the embedded object yields
revenue 1.  The round-trip claim fails for arbitrary surrounding
prose. -/
theorem claim_C5_cex :
    extract_revenue_from_response
        "a \x7b\"revenue_usd\": 1, \"source_url\": \"u\", \"confidence\": \"c\", \"reasoning\": \"r\"\x7d x\x7d"
      = .ok (none, "Invalid JSON response: Extra data")
    ∧ jsonLoadsL
        ("\x7b\"revenue_usd\": 1, \"source_url\": \"u\", \"confidence\": \"c\", \"reasoning\": \"r\"\x7d".toList)
      = .ok (.obj [("revenue_usd", .num 1), ("source_url", .str "u"),
          ("confidence", .str "c"), ("reasoning", .str "r")]) :=
  ⟨rfl, rfl⟩

/-- C5 (amended): round-trip holds when the prose before the object
contains no open brace and the prose after it contains no close brace:
for any brace-delimited JSON object text parsing to an object whose
`revenue_usd` is a nonnegative number and whose `source_url`,
`confidence` and `reasoning` fields are strings, the extractor applied to
prose-object-prose returns exactly the directly parsed `revenue_usd`
value together with the citation built from the directly parsed
`source_url`; in particular the claim's concrete scenario holds (see the
witness). -/
theorem claim_C5 (p1 j p2 : String) (mid : List Char)
    (fs : List (String × Json)) (q : ℚ) (src conf reas : String)
    (hp1 : lbrace ∉ p1.toList) (hp2 : rbrace ∉ p2.toList)
    (hj : j.toList = lbrace :: (mid ++ [rbrace]))
    (hparse : jsonLoadsL j.toList = .ok (.obj fs))
    (hrev : lookupLast fs "revenue_usd" = some (.num q)) (hq : 0 ≤ q)
    (hsrc : lookupLast fs "source_url" = some (.str src))
    (hconf : lookupLast fs "confidence" = some (.str conf))
    (hreas : lookupLast fs "reasoning" = some (.str reas)) :
    extract_revenue_from_response (p1 ++ j ++ p2)
      = .ok (some (.finite q), src ++ " (Confidence: " ++ conf ++ ") - " ++ reas) := by
  have htl : (p1 ++ j ++ p2).toList = p1.toList ++ j.toList ++ p2.toList := by
    show (p1 ++ j ++ p2).data = p1.data ++ j.data ++ p2.data
    rw [String.data_append, String.data_append]
  have hbm : braceMatch (p1 ++ j ++ p2).toList = some j.toList := by
    rw [htl, hj, List.append_assoc]
    rw [show p1.toList ++ ((lbrace :: (mid ++ [rbrace])) ++ p2.toList)
      = p1.toList ++ (lbrace :: (mid ++ [rbrace])) ++ p2.toList from
        (List.append_assoc _ _ _).symm]
    exact braceMatch_embed hp1 hp2
  have h0 : p1 ++ j ++ p2 ≠ "" := by
    intro he
    have hnil : (p1 ++ j ++ p2).toList = [] := by rw [he]; rfl
    rw [htl, hj] at hnil
    simp at hnil
  have hstrat : strat1Process (.obj fs)
      = .ok (some (.finite q), src ++ " (Confidence: " ++ conf ++ ") - " ++ reas) := by
    have hnn : ¬ PyFloat.finite q < 0 :=
      fun hc => absurd (finite_lt_finite.mp hc) (not_lt.mpr hq)
    simp [strat1Process, pyGet, Except.bind, bind, pure, Except.pure,
      hrev, hsrc, hconf, hreas, hnn, pyFloat, pyStr]
  exact extract_of_body_ok h0 (by rw [extractBody_strat1 hbm hparse, hstrat])

set_option maxRecDepth 40000 in
/-- C5 witness: the claim's concrete scenario, via the amended round-trip
theorem at the scenario's prose and object. -/
theorem claim_C5_witness :
    extract_revenue_from_response
        ("noise " ++ "\x7b\"revenue_usd\": 250000000, \"source_url\": \"https://x.com\", \"confidence\": \"high\", \"reasoning\": \"10-K\"\x7d" ++ " trailing")
      = .ok (some 250000000, "https://x.com (Confidence: high) - 10-K") :=
  claim_C5 "noise "
    "\x7b\"revenue_usd\": 250000000, \"source_url\": \"https://x.com\", \"confidence\": \"high\", \"reasoning\": \"10-K\"\x7d"
    " trailing"
    ("\"revenue_usd\": 250000000, \"source_url\": \"https://x.com\", \"confidence\": \"high\", \"reasoning\": \"10-K\"".toList)
    [("revenue_usd", .num 250000000), ("source_url", .str "https://x.com"),
      ("confidence", .str "high"), ("reasoning", .str "10-K")]
    250000000 "https://x.com" "high" "10-K"
    (by decide) (by decide) rfl rfl rfl (by norm_num) rfl rfl rfl

set_option maxRecDepth 10000 in
/-- C9 counterexample: `json.loads` accepts the `NaN` constant by
default and `float(nan)` succeeds, while strategy 1's guard
`revenue < 0` is False for nan, so the extractor keeps a present NaN
revenue — a successful extraction whose revenue is neither at least 0
nor negative, refuting the claimed invariant on the program. -/
theorem claim_C9_cex :
    extract_revenue_from_response
        "\x7b\"revenue_usd\": NaN, \"source_url\": \"u\", \"confidence\": \"h\", \"reasoning\": \"r\"\x7d"
      = .ok (some PyFloat.nan, "u (Confidence: h) - r")
    ∧ ¬ ((0 : PyFloat) ≤ PyFloat.nan)
    ∧ ¬ (PyFloat.nan < 0) :=
  ⟨rfl, by decide, by decide⟩

/-- C9 (amended): what the extractor actually guarantees is that a kept
revenue is never negative, not that it is nonnegative — NaN falls through
the `revenue < 0` guard.  First conjunct: a present FINITE revenue is at
least 0.  Second conjunct: any present revenue (including NaN and
infinities) fails `r < 0` (strategy 1 discards values with `r < 0`
explicitly; strategy 2 lacks the check but can only succeed on a JSON
dict, whose text contains an open brace before a close brace, so the
brace regex would have matched and strategy 2 is unreachable with a
dict).  Third conjunct: the pipeline record of `analyze_company_revenue`
inherits that guarantee. -/
theorem claim_C9 :
    (∀ (s : String) (q : ℚ) (c : String),
      extract_revenue_from_response s = .ok (some (.finite q), c) → 0 ≤ q)
    ∧ (∀ (s : String) (r : PyFloat) (c : String),
      extract_revenue_from_response s = .ok (some r, c) → ¬ r < 0)
    ∧ (∀ (search : String → String → Except PyExc String)
        (ext : String → String → Except PyExc (Option PyFloat × String))
        (now : ℚ) (name domain : String) (rec : RevenueAnalysis),
      (∀ n sr (r : PyFloat) (c : String), ext n sr = .ok (some r, c) → ¬ r < 0) →
      analyze_company_revenue search ext now name domain = .ok rec →
      ∀ r, rec.estimated_revenue_usd = some r → ¬ r < 0) := by
  have main : ∀ (s : String) (r : PyFloat) (c : String),
      extract_revenue_from_response s = .ok (some r, c) → ¬ r < 0 := by
    intro s r c h
    by_cases h0 : s = ""
    · subst h0
      rw [show extract_revenue_from_response ""
        = .ok (none, "Failed to get response from AI model") from rfl] at h
      simp at h
    · rcases hb : braceMatch s.toList with _ | jl
      · rcases hj : jsonLoadsL s.toList with m | data
        · rw [extract_of_body_ok h0 (extractBody_strat3 hb hj)] at h
          simp at h
        · rcases hp : strat2Process data with e | rc
          · rw [extract_handler h0 (by rw [extractBody_strat2 hb hj, hp])] at h
            simp at h
          · obtain ⟨fs, rfl⟩ := strat2_obj_only hp
            exact absurd hb (jsonLoadsL_obj_braceMatch hj)
      · rcases hj : jsonLoadsL jl with m | data
        · rw [extract_handler h0 (extractBody_strat1_err hb hj)] at h
          simp at h
        · rcases hp : strat1Process data with e | rc
          · rw [extract_handler h0 (by rw [extractBody_strat1 hb hj, hp])] at h
            simp at h
          · rw [extract_of_body_ok h0 (by rw [extractBody_strat1 hb hj, hp])] at h
            simp only [Except.ok.injEq] at h
            exact strat1_nonneg hp r (by rw [h])
  refine ⟨?_, main, ?_⟩
  · intro s q c h
    exact not_lt.mp (fun hq => main s (.finite q) c h (finite_lt_finite.mpr hq))
  · intro search ext now name domain rec hext h r hr
    simp only [analyze_company_revenue] at h
    rcases hv : validate_input name domain with e | u <;> rw [hv] at h
    · simp at h
    · dsimp only at h
      rcases he : ext name (match search name domain with
          | .ok s => s
          | .error e => "Search failed: " ++ e.msg) with e2 | ⟨pv, pc⟩ <;>
        rw [he] at h
      · dsimp only at h
        simp only [Except.ok.injEq] at h
        subst h
        simp at hr
      · dsimp only at h
        simp only [Except.ok.injEq] at h
        subst h
        dsimp only at hr
        subst hr
        exact hext _ _ r pc he

set_option maxRecDepth 10000 in
/-- C9 witness: a concrete successful extraction has a finite nonnegative
and non-negative-tested revenue, and a concrete pipeline record inherits
the guarantee. -/
theorem claim_C9_witness :
    extract_revenue_from_response
        "\x7b\"revenue_usd\": 250000000, \"source_url\": \"u\", \"confidence\": \"h\", \"reasoning\": \"r\"\x7d"
      = .ok (some 250000000, "u (Confidence: h) - r")
    ∧ (0 : ℚ) ≤ 250000000
    ∧ ¬ ((250000000 : PyFloat) < 0)
    ∧ ¬ ((5 : PyFloat) < 0) := by
  refine ⟨rfl, ?_, ?_, ?_⟩
  · exact claim_C9.1
      "\x7b\"revenue_usd\": 250000000, \"source_url\": \"u\", \"confidence\": \"h\", \"reasoning\": \"r\"\x7d"
      250000000 "u (Confidence: h) - r" rfl
  · exact claim_C9.2.1
      "\x7b\"revenue_usd\": 250000000, \"source_url\": \"u\", \"confidence\": \"h\", \"reasoning\": \"r\"\x7d"
      (250000000 : PyFloat) "u (Confidence: h) - r" rfl
  · exact claim_C9.2.2 (fun _ _ => .ok "sr") (fun _ _ => .ok (some 5, "c")) 0 "Ap" ""
      { company_name := "Ap", company_domain := "", estimated_revenue_usd := some 5,
        citation := "c", search_results := "sr", status := "success", timestamp := 0 }
      (fun n sr r c h => by
        simp only [Except.ok.injEq, Prod.mk.injEq, Option.some.injEq] at h
        rw [← h.1]
        decide)
      rfl 5 rfl

/-- C8: the batch loop is resilient.  For any analyze function, any rows,
and a row k on which analyze raises, `process_companies_batch` returns as
many results as rows; row k's result is the error row (revenue absent,
tier "Error", the error message in the citation); and every row's result
is exactly the per-row processing of that row alone, so rows other than k
are unaffected and the batch never aborts early. -/
theorem claim_C8 (analyze : String → String → Except PyExc RevenueAnalysis)
    (companies : List CompanyData) (k : ℕ) (cd : CompanyData) (e : PyExc)
    (hcd : companies.get? k = some cd)
    (he : analyze cd.name cd.domain = .error e) :
    (process_companies_batch analyze companies).length = companies.length
    ∧ (process_companies_batch analyze companies).get? k
        = some (errorTierRecord cd e)
    ∧ ∀ j cdj, companies.get? j = some cdj →
        (process_companies_batch analyze companies).get? j
          = some (process_single_company analyze cdj) := by
  refine ⟨by simp [process_companies_batch], ?_, fun j cdj hj => ?_⟩
  · rw [process_companies_batch, List.get?_map, hcd]
    dsimp only [Option.map]
    rw [show process_single_company analyze cd = errorTierRecord cd e from by
      unfold process_single_company
      rw [he]]
  · rw [process_companies_batch, List.get?_map, hj]
    rfl

/-- C8 witness: a two-row batch where the first row's analysis raises;
both rows are present, the first as the error row, the second processed
normally. -/
theorem claim_C8_witness :
    (process_companies_batch
        (fun n _ =>
          if n = "Bad Co"
          then (.error (.apiError "boom") : Except PyExc RevenueAnalysis)
          else .ok (RevenueAnalysis.mk n "" none "" "" "partial" 0 none none))
        [CompanyData.mk "Bad Co" "bad.com" "EU",
          CompanyData.mk "Good Co" "good.com" "US"]).length = 2
    ∧ (process_companies_batch
        (fun n _ =>
          if n = "Bad Co"
          then (.error (.apiError "boom") : Except PyExc RevenueAnalysis)
          else .ok (RevenueAnalysis.mk n "" none "" "" "partial" 0 none none))
        [CompanyData.mk "Bad Co" "bad.com" "EU",
          CompanyData.mk "Good Co" "good.com" "US"]).get? 0
      = some (errorTierRecord (CompanyData.mk "Bad Co" "bad.com" "EU")
          (.apiError "boom"))
    ∧ ∀ j cdj,
        [CompanyData.mk "Bad Co" "bad.com" "EU",
          CompanyData.mk "Good Co" "good.com" "US"].get? j = some cdj →
        (process_companies_batch
          (fun n _ =>
            if n = "Bad Co"
            then (.error (.apiError "boom") : Except PyExc RevenueAnalysis)
            else .ok (RevenueAnalysis.mk n "" none "" "" "partial" 0 none none))
          [CompanyData.mk "Bad Co" "bad.com" "EU",
            CompanyData.mk "Good Co" "good.com" "US"]).get? j
          = some (process_single_company
              (fun n _ =>
                if n = "Bad Co"
                then (.error (.apiError "boom") : Except PyExc RevenueAnalysis)
                else .ok (RevenueAnalysis.mk n "" none "" "" "partial" 0 none none))
              cdj) :=
  claim_C8 _ _ 0 (CompanyData.mk "Bad Co" "bad.com" "EU") (.apiError "boom") rfl rfl

/-- C10: in every record `analyze_company_revenue` returns, the status is
"success" exactly when `estimated_revenue_usd` is present; records with
status "partial" or "failed" always carry an absent revenue (the "failed"
record of the dead outer-handler branch included), so the outcome is
recoverable without inspecting the citation text. -/
theorem claim_C10 :
    (∀ (search : String → String → Except PyExc String)
        (ext : String → String → Except PyExc (Option PyFloat × String))
        (now : ℚ) (name domain : String) (rec : RevenueAnalysis),
      analyze_company_revenue search ext now name domain = .ok rec →
        ((rec.status = "success" ↔ rec.estimated_revenue_usd ≠ none)
          ∧ (rec.status = "partial" → rec.estimated_revenue_usd = none)
          ∧ (rec.status = "failed" → rec.estimated_revenue_usd = none)))
    ∧ ∀ (name domain : String) (e : PyExc) (now : ℚ),
        (analysisFailedRecord name domain e now).status = "failed"
        ∧ (analysisFailedRecord name domain e now).estimated_revenue_usd = none := by
  constructor
  · intro search ext now name domain rec h
    simp only [analyze_company_revenue] at h
    rcases hv : validate_input name domain with e | u <;> rw [hv] at h
    · simp at h
    · dsimp only at h
      simp only [Except.ok.injEq] at h
      subst h
      rcases ho : (match ext name (match search name domain with
          | .ok s => s
          | .error e => "Search failed: " ++ e.msg) with
        | .ok p => p
        | .error e2 =>
          ((none : Option PyFloat), "Revenue extraction failed: " ++ e2.msg)).1 with _ | q
      · dsimp only
        rw [ho]
        rw [show (if (none : Option PyFloat).isSome = true then ("success" : String)
          else "partial") = "partial" from rfl]
        exact ⟨iff_of_false (by decide) (by simp), fun _ => rfl, fun _ => rfl⟩
      · dsimp only
        rw [ho]
        rw [show (if (some q).isSome = true then ("success" : String)
          else "partial") = "success" from rfl]
        exact ⟨iff_of_true rfl (by simp), fun hcon => absurd hcon (by decide),
          fun hcon => absurd hcon (by decide)⟩
  · intro name domain e now
    exact ⟨rfl, rfl⟩

/-- C10 witness: a concrete successful analysis record satisfies the
status/revenue correspondence. -/
theorem claim_C10_witness :
    ((RevenueAnalysis.mk "Ap" "" (some 5) "cit" "sr" "success" 0 none none).status
        = "success"
      ↔ (RevenueAnalysis.mk "Ap" "" (some 5) "cit" "sr" "success" 0 none
          none).estimated_revenue_usd ≠ none)
    ∧ ((RevenueAnalysis.mk "Ap" "" (some 5) "cit" "sr" "success" 0 none none).status
        = "partial"
      → (RevenueAnalysis.mk "Ap" "" (some 5) "cit" "sr" "success" 0 none
          none).estimated_revenue_usd = none)
    ∧ ((RevenueAnalysis.mk "Ap" "" (some 5) "cit" "sr" "success" 0 none none).status
        = "failed"
      → (RevenueAnalysis.mk "Ap" "" (some 5) "cit" "sr" "success" 0 none
          none).estimated_revenue_usd = none) :=
  claim_C10.1 (fun _ _ => .ok "sr") (fun _ _ => .ok (some 5, "cit")) 0 "Ap" "" _ rfl

end Shipsy
